import Mathlib

/-!
Shallow embedding of the `payments` transaction processor
(src/client.rs, src/payments.rs, src/transaction.rs, src/error.rs).

Modelling choices:
* `rust_decimal::Decimal` amounts are modelled by `ℚ` (arithmetic used by the
  code is `+`, `-`, unary `-` and `<`, all exact on `Decimal` and on `ℚ`).
* `u32` transaction ids and `u16` client ids are modelled by `Nat` (they are
  only compared for equality, never computed with).
* `HashMap` is modelled by an association list with unique keys; `insert` of an
  absent key prepends, in-place mutation of a present key rewrites the entry.
* A Rust method `fn f(&mut self, ...) -> Result<(), Error>` is modelled as a
  pure function returning the resulting state paired with `Option Error`; at
  every early `return Err(...)` of the source no field has been written yet, so
  the error branch returns the incoming state unchanged.
-/

namespace PaymentsModel

abbrev TransactionId := Nat
abbrev ClientId := Nat

/-- src/client.rs `OperationState`: lifecycle states of a transaction. -/
inductive OperationState where
  | New
  | InDispute
  | Resolved
  | Chargedback
deriving DecidableEq

/-- src/error.rs `Error` (without `ParsingFailure`, which the core never
produces: it belongs to the out-of-scope decoding layer). -/
inductive Error where
  | DuplicatedTransaction (id : TransactionId)
  | TransactionNotFound (id : TransactionId)
  | InsufficientFunds (id : TransactionId) (available requested : ℚ)
  | InvalidTransactionStateChange (id : TransactionId) (src dst : OperationState)
  | AccountLocked (id : TransactionId)
  | FailedDisputeNotEnoughFunds (id : TransactionId)
deriving DecidableEq

/-- src/client.rs `StatefulOperation`. -/
structure StatefulOperation where
  id : TransactionId
  amount : ℚ
  state : OperationState
deriving DecidableEq

/-- src/client.rs `StatefulOperation::new`. -/
def StatefulOperation.new (id : TransactionId) (amount : ℚ) : StatefulOperation :=
  { id := id, amount := amount, state := OperationState.New }

/-- src/client.rs `StatefulOperation::state_transition`.  The Rust method
mutates `self.state` and returns `Result<(), Error>`; on the `Err` path the
`?` fires before the assignment, so the state is unchanged there. -/
def StatefulOperation.state_transition (op : StatefulOperation)
    (new_state : OperationState) : StatefulOperation × Option Error :=
  match op.state, new_state with
  | OperationState.New, OperationState.InDispute =>
      ({ op with state := new_state }, none)
  | OperationState.InDispute, OperationState.Resolved =>
      ({ op with state := new_state }, none)
  | OperationState.InDispute, OperationState.Chargedback =>
      ({ op with state := new_state }, none)
  | f, t =>
      if f = t then ({ op with state := f }, none)
      else (op, some (Error.InvalidTransactionStateChange op.id f t))

/-- src/transaction.rs `OperationType`. -/
inductive OperationType where
  | Deposit (amount : ℚ)
  | Withdrawal (amount : ℚ)
  | Dispute
  | Resolve
  | Chargeback
deriving DecidableEq

/-- src/transaction.rs `Operation`. -/
structure Operation where
  id : TransactionId
  kind : OperationType
deriving DecidableEq

/-- src/transaction.rs `Transaction`. -/
structure Transaction where
  op : Operation
  client_id : ClientId
deriving DecidableEq

/-- Association-list model of `HashMap` lookup (`get` / `contains_key`):
the value stored under key `k`, if any. -/
def mapLookup {β : Type} : List (Nat × β) → Nat → Option β
  | [], _ => none
  | (k, v) :: rest, i => if k = i then some v else mapLookup rest i

/-- The per-client `HashMap<TransactionId, StatefulOperation>`. -/
abbrev OperationsMap := List (TransactionId × StatefulOperation)

/-- In-place rewrite of the record stored under key `id`
(the `Entry::Occupied ... get_mut()` mutation). -/
def updateRecord (ops : OperationsMap) (id : TransactionId)
    (r : StatefulOperation) : OperationsMap :=
  ops.map fun p => if p.1 = id then (id, r) else p

/-- src/client.rs `Client`. -/
structure Client where
  id : ClientId
  operations : OperationsMap
  available : ℚ
  held : ℚ
  total : ℚ
  locked : Bool
deriving DecidableEq

/-- src/client.rs `Client::new` (all non-id fields from `Default`). -/
def Client.new (id : ClientId) : Client :=
  { id := id, operations := [], available := 0, held := 0, total := 0,
    locked := false }

/-- src/client.rs `Client::try_deposit`. -/
def Client.try_deposit (c : Client) (id : TransactionId) (amount : ℚ) :
    Client × Option Error :=
  if (mapLookup c.operations id).isSome then
    (c, some (Error.DuplicatedTransaction id))
  else
    ({ c with operations := (id, StatefulOperation.new id amount) :: c.operations,
              total := c.total + amount,
              available := c.available + amount }, none)

/-- src/client.rs `Client::try_withdraw`. -/
def Client.try_withdraw (c : Client) (id : TransactionId) (amount : ℚ) :
    Client × Option Error :=
  if (mapLookup c.operations id).isSome then
    (c, some (Error.DuplicatedTransaction id))
  else if c.available < amount then
    (c, some (Error.InsufficientFunds id c.available amount))
  else
    ({ c with operations := (id, StatefulOperation.new id (-amount)) :: c.operations,
              total := c.total - amount,
              available := c.available - amount }, none)

/-- src/client.rs `Client::try_dispute`. -/
def Client.try_dispute (c : Client) (id : TransactionId) : Client × Option Error :=
  match mapLookup c.operations id with
  | none => (c, some (Error.TransactionNotFound id))
  | some op =>
    if c.available < op.amount then
      (c, some (Error.FailedDisputeNotEnoughFunds id))
    else
      match op.state_transition OperationState.InDispute with
      | (_, some e) => (c, some e)
      | (op2, none) =>
        ({ c with operations := updateRecord c.operations id op2,
                  available := c.available - op.amount,
                  held := c.held + op.amount }, none)

/-- src/client.rs `Client::try_resolve`. -/
def Client.try_resolve (c : Client) (id : TransactionId) : Client × Option Error :=
  match mapLookup c.operations id with
  | none => (c, some (Error.TransactionNotFound id))
  | some op =>
    match op.state_transition OperationState.Resolved with
    | (_, some e) => (c, some e)
    | (op2, none) =>
      ({ c with operations := updateRecord c.operations id op2,
                available := c.available + op.amount,
                held := c.held - op.amount }, none)

/-- src/client.rs `Client::try_chargeback`. -/
def Client.try_chargeback (c : Client) (id : TransactionId) : Client × Option Error :=
  match mapLookup c.operations id with
  | none => (c, some (Error.TransactionNotFound id))
  | some op =>
    match op.state_transition OperationState.Chargedback with
    | (_, some e) => (c, some e)
    | (op2, none) =>
      ({ c with operations := updateRecord c.operations id op2,
                held := c.held - op.amount,
                total := c.total - op.amount,
                locked := true }, none)

/-- src/client.rs `Client::apply`. -/
def Client.apply (c : Client) (op : Operation) : Client × Option Error :=
  if c.locked then (c, some (Error.AccountLocked op.id))
  else
    match op.kind with
    | OperationType.Deposit amount => c.try_deposit op.id amount
    | OperationType.Withdrawal amount => c.try_withdraw op.id amount
    | OperationType.Dispute => c.try_dispute op.id
    | OperationType.Resolve => c.try_resolve op.id
    | OperationType.Chargeback => c.try_chargeback op.id

/-- The state reached after one operation: the `&mut self` state left behind by
`Client::apply`, whether it returned `Ok` or `Err`. -/
def Client.step (c : Client) (op : Operation) : Client :=
  (c.apply op).1

/-- src/payments.rs `Payments`. -/
structure Payments where
  clients : List (ClientId × Client)
deriving DecidableEq

/-- `Payments::default()`. -/
def Payments.empty : Payments := { clients := [] }

/-- Store the (possibly mutated) client back: the existing entry is rewritten
in place, an absent key is inserted (`entry(..).or_insert_with(..)`). -/
def setClient (cs : List (ClientId × Client)) (id : ClientId) (c : Client) :
    List (ClientId × Client) :=
  if (mapLookup cs id).isSome then
    cs.map fun q => if q.1 = id then (id, c) else q
  else
    cs ++ [(id, c)]

/-- src/payments.rs `Payments::apply`: look up or create the client, delegate,
and keep the client in the map whatever the outcome. -/
def Payments.apply (p : Payments) (t : Transaction) : Payments × Option Error :=
  let client := (mapLookup p.clients t.client_id).getD (Client.new t.client_id)
  let res := client.apply t.op
  ({ clients := setClient p.clients t.client_id res.1 }, res.2)

/-- The registry state after one transaction. -/
def Payments.step (p : Payments) (t : Transaction) : Payments :=
  (p.apply t).1


/-! ### General lemmas about the embedding -/

/-- Appending a fresh key to an association list makes it found. -/
theorem mapLookup_append_right {β : Type} (l : List (Nat × β)) (k : Nat) (v : β)
    (h : mapLookup l k = none) : mapLookup (l ++ [(k, v)]) k = some v := by
  induction l with
  | nil => simp [mapLookup]
  | cons p rest ih =>
    obtain ⟨a, b⟩ := p
    by_cases hak : a = k
    · simp [mapLookup, hak] at h
    · simp only [List.cons_append, mapLookup, hak, if_false] at h ⊢
      exact ih h

/-- Every branch of `Client::apply` either returns `Ok` or returns the client
it was given, untouched. -/
theorem apply_cases (c : Client) (op : Operation) :
    (c.apply op).2 = none ∨ (c.apply op).1 = c := by
  unfold Client.apply Client.try_deposit Client.try_withdraw Client.try_dispute
    Client.try_resolve Client.try_chargeback
  repeat' split
  all_goals simp

/-- One step of `Client::apply` preserves `total = available + held`. -/
theorem step_preserves_balance (c : Client) (op : Operation)
    (h : c.total = c.available + c.held) :
    (Client.step c op).total =
      (Client.step c op).available + (Client.step c op).held := by
  unfold Client.step Client.apply Client.try_deposit Client.try_withdraw
    Client.try_dispute Client.try_resolve Client.try_chargeback
  repeat' split
  all_goals simp
  all_goals linarith

/-- `total = available + held` is preserved by any sequence of operations. -/
theorem foldl_preserves_balance (ops : List Operation) :
    ∀ c : Client, c.total = c.available + c.held →
      (ops.foldl Client.step c).total =
        (ops.foldl Client.step c).available + (ops.foldl Client.step c).held := by
  induction ops with
  | nil => intro c h; simpa using h
  | cons o rest ih =>
    intro c h
    simpa only [List.foldl_cons] using ih (Client.step c o) (step_preserves_balance c o h)

/-! ### Claim theorems -/

/-- C1: for every account and every sequence of operations applied through
`Client::apply` starting from a freshly created client, after every operation,
successful or failed, `total = available + held` holds. -/
theorem balance_invariant (cid : ClientId) (ops : List Operation) :
    (ops.foldl Client.step (Client.new cid)).total =
      (ops.foldl Client.step (Client.new cid)).available +
        (ops.foldl Client.step (Client.new cid)).held := by
  refine foldl_preserves_balance ops (Client.new cid) ?_
  simp [Client.new]

/-- C3: over all 16 ordered pairs of lifecycle states, `state_transition`
succeeds exactly on the 4 identity pairs (as no-ops) and the 3 non-trivial
legal pairs New→InDispute, InDispute→Resolved, InDispute→Chargedback; every
other pair fails with `InvalidTransactionStateChange` carrying the transaction
id and the attempted source and destination states, leaving the state
unchanged. -/
theorem state_transition_complete (id : TransactionId) (amount : ℚ)
    (f t : OperationState) :
    StatefulOperation.state_transition ⟨id, amount, f⟩ t =
      if f = t ∨ (f = OperationState.New ∧ t = OperationState.InDispute)
          ∨ (f = OperationState.InDispute ∧ t = OperationState.Resolved)
          ∨ (f = OperationState.InDispute ∧ t = OperationState.Chargedback)
      then (⟨id, amount, t⟩, none)
      else (⟨id, amount, f⟩, some (Error.InvalidTransactionStateChange id f t)) := by
  cases f <;> cases t <;> simp [StatefulOperation.state_transition]

/-- C9: every rejection is atomic: whenever `Client::apply` returns an error of
any kind, the resulting account state (balances, lock flag and every
transaction record) is exactly the state before the operation. -/
theorem apply_error_atomic (c : Client) (op : Operation) (e : Error)
    (h : (c.apply op).2 = some e) : (c.apply op).1 = c := by
  rcases apply_cases c op with h0 | h0
  · rw [h0] at h; cases h
  · exact h0

/-- Witness for C9: a dispute of an unknown transaction on a fresh client
fails and leaves the client untouched. -/
theorem apply_error_atomic_witness :
    ((Client.new 0).apply ⟨5, OperationType.Dispute⟩).1 = Client.new 0 :=
  apply_error_atomic (Client.new 0) ⟨5, OperationType.Dispute⟩
    (Error.TransactionNotFound 5) rfl

/-- Helper for C4: a `try_chargeback` that succeeds leaves the account
locked. -/
theorem try_chargeback_ok_locks (d : Client) (id : TransactionId)
    (h : (d.try_chargeback id).2 = none) : ((d.try_chargeback id).1).locked = true := by
  unfold Client.try_chargeback at h ⊢
  repeat' split at h
  all_goals simp_all

/-- C4: the locked flag starts false, a successful Chargeback sets it, and on
a locked account every operation of any kind fails with `AccountLocked`
carrying the operation's transaction id and changes nothing (hence `locked`
is never reset). -/
theorem locked_monotonic (cid : ClientId) (c d : Client) (op : Operation)
    (id : TransactionId) (h : c.locked = true) :
    (Client.new cid).locked = false
    ∧ c.apply op = (c, some (Error.AccountLocked op.id))
    ∧ (Client.step c op).locked = true
    ∧ ((d.apply ⟨id, OperationType.Chargeback⟩).2 = none →
        ((d.apply ⟨id, OperationType.Chargeback⟩).1).locked = true) := by
  refine ⟨rfl, ?_, ?_, ?_⟩
  · simp [Client.apply, h]
  · simp [Client.step, Client.apply, h]
  · intro hn
    by_cases hd : d.locked
    · simp [Client.apply, hd] at hn
    · simp only [Client.apply, hd, Bool.false_eq_true, if_false] at hn ⊢
      exact try_chargeback_ok_locks d id hn

/-- Witness for C4: a concrete locked account rejects a deposit with
`AccountLocked`, unchanged. -/
theorem locked_monotonic_witness :
    (⟨0, [], 0, 0, 0, true⟩ : Client).apply ⟨9, OperationType.Deposit 1⟩ =
      (⟨0, [], 0, 0, 0, true⟩, some (Error.AccountLocked 9)) :=
  (locked_monotonic 3 ⟨0, [], 0, 0, 0, true⟩ (Client.new 1)
    ⟨9, OperationType.Deposit 1⟩ 0 rfl).2.1

/-- C5: on an unlocked account, a Deposit or a Withdrawal whose transaction id
is already recorded fails with `DuplicatedTransaction` and leaves balances and
records unchanged. -/
theorem duplicate_transaction_rejected (c : Client) (id : TransactionId) (a : ℚ)
    (hl : c.locked = false) (hdup : (mapLookup c.operations id).isSome = true) :
    c.apply ⟨id, OperationType.Deposit a⟩ =
      (c, some (Error.DuplicatedTransaction id))
    ∧ c.apply ⟨id, OperationType.Withdrawal a⟩ =
      (c, some (Error.DuplicatedTransaction id)) := by
  constructor <;>
    simp [Client.apply, hl, Client.try_deposit, Client.try_withdraw, hdup]

/-- Witness for C5: a second deposit and a withdrawal reusing id 1 on an
account that already recorded id 1 are rejected. -/
theorem duplicate_transaction_rejected_witness :
    (⟨0, [(1, ⟨1, 2, OperationState.New⟩)], 2, 0, 2, false⟩ : Client).apply
        ⟨1, OperationType.Deposit 3⟩ =
      (⟨0, [(1, ⟨1, 2, OperationState.New⟩)], 2, 0, 2, false⟩,
        some (Error.DuplicatedTransaction 1))
    ∧ (⟨0, [(1, ⟨1, 2, OperationState.New⟩)], 2, 0, 2, false⟩ : Client).apply
        ⟨1, OperationType.Withdrawal 3⟩ =
      (⟨0, [(1, ⟨1, 2, OperationState.New⟩)], 2, 0, 2, false⟩,
        some (Error.DuplicatedTransaction 1)) :=
  duplicate_transaction_rejected ⟨0, [(1, ⟨1, 2, OperationState.New⟩)], 2, 0, 2, false⟩
    1 3 rfl rfl

/-- C6: on an unlocked account, a Dispute of id `t` fails with
`TransactionNotFound` when no record exists; otherwise, when
`available < record.amount` it fails with `FailedDisputeNotEnoughFunds`
leaving record and balances untouched; otherwise, on a record in state `New`,
it moves the record to `InDispute`, decrements `available` and increments
`held` by the record's signed amount, and the resulting available balance is
never negative. -/
theorem dispute_behavior (c : Client) (id : TransactionId)
    (hl : c.locked = false) :
    (mapLookup c.operations id = none →
      c.apply ⟨id, OperationType.Dispute⟩ = (c, some (Error.TransactionNotFound id)))
    ∧ (∀ r : StatefulOperation, mapLookup c.operations id = some r →
        c.available < r.amount →
        c.apply ⟨id, OperationType.Dispute⟩ =
          (c, some (Error.FailedDisputeNotEnoughFunds id)))
    ∧ (∀ r : StatefulOperation, mapLookup c.operations id = some r →
        ¬ c.available < r.amount → r.state = OperationState.New →
        c.apply ⟨id, OperationType.Dispute⟩ =
          ({ c with
              operations := updateRecord c.operations id
                { r with state := OperationState.InDispute },
              available := c.available - r.amount,
              held := c.held + r.amount }, none)
        ∧ 0 ≤ c.available - r.amount) := by
  refine ⟨?_, ?_, ?_⟩
  · intro hnone
    simp [Client.apply, hl, Client.try_dispute, hnone]
  · intro r hr hlt
    simp [Client.apply, hl, Client.try_dispute, hr, hlt]
  · intro r hr hge hnew
    have ht : r.state_transition OperationState.InDispute =
        ({ r with state := OperationState.InDispute }, none) := by
      obtain ⟨ri, ra, rs⟩ := r
      simp only at hnew
      subst hnew
      simp [StatefulOperation.state_transition]
    have hle := not_lt.mp hge
    constructor
    · simp [Client.apply, hl, Client.try_dispute, hr, hge, ht]
    · linarith

/-- Witness for C6: disputing a recorded deposit of 2 on an unlocked account
with available 2 succeeds, holds the funds and keeps available non-negative. -/
theorem dispute_behavior_witness :
    (⟨0, [(1, ⟨1, 2, OperationState.New⟩)], 2, 0, 2, false⟩ : Client).apply
        ⟨1, OperationType.Dispute⟩ =
      (⟨0, [(1, ⟨1, 2, OperationState.InDispute⟩)], 0, 2, 2, false⟩, none) := by
  have h := ((dispute_behavior
    ⟨0, [(1, ⟨1, 2, OperationState.New⟩)], 2, 0, 2, false⟩ 1 rfl).2.2
    ⟨1, 2, OperationState.New⟩ (by simp [mapLookup]) (by norm_num) rfl).1
  simpa [updateRecord] using h

/-- C7: `Payments::apply` creates the target account (zero balances, unlocked,
empty records) when absent, even when the delegated per-account operation then
fails: a Dispute naming a never-seen account fails with `TransactionNotFound`
yet the account remains in the registry as a freshly created client. -/
theorem registry_creates_account (p : Payments) (cid : ClientId)
    (id : TransactionId) (k : OperationType)
    (h : mapLookup p.clients cid = none) :
    (mapLookup (Payments.step p ⟨⟨id, k⟩, cid⟩).clients cid).isSome = true
    ∧ Payments.apply p ⟨⟨id, OperationType.Dispute⟩, cid⟩ =
        (⟨p.clients ++ [(cid, Client.new cid)]⟩,
          some (Error.TransactionNotFound id))
    ∧ mapLookup (Payments.step p ⟨⟨id, OperationType.Dispute⟩, cid⟩).clients cid
        = some (Client.new cid)
    ∧ Client.new cid = ⟨cid, [], 0, 0, 0, false⟩ := by
  have hdisp : Payments.apply p ⟨⟨id, OperationType.Dispute⟩, cid⟩ =
      (⟨p.clients ++ [(cid, Client.new cid)]⟩, some (Error.TransactionNotFound id)) := by
    simp [Payments.apply, h, setClient, Client.apply, Client.new,
      Client.try_dispute, mapLookup]
  refine ⟨?_, hdisp, ?_, rfl⟩
  · simp only [Payments.step, Payments.apply, h, Option.getD_none, setClient,
      Option.isSome_none, Bool.false_eq_true, if_false]
    rw [mapLookup_append_right p.clients cid _ h]
    rfl
  · simp only [Payments.step, hdisp]
    exact mapLookup_append_right p.clients cid _ h

/-- Witness for C7: a dispute for account 1, never referenced before, creates
account 1 with zero balances and fails with `TransactionNotFound`. -/
theorem registry_creates_account_witness :
    Payments.apply Payments.empty ⟨⟨5, OperationType.Dispute⟩, 1⟩ =
      (⟨[(1, Client.new 1)]⟩, some (Error.TransactionNotFound 5)) := by
  have h := (registry_creates_account Payments.empty 1 5
    OperationType.Dispute rfl).2.1
  simpa [Payments.empty] using h

/-- Operation sequence leading to an account with a transaction already
`InDispute` and spare available funds: deposit(tx1, 1); deposit(tx2, 5);
dispute(tx1). -/
def doubleDisputeOps : List Operation :=
  [⟨1, OperationType.Deposit 1⟩, ⟨2, OperationType.Deposit 5⟩,
   ⟨1, OperationType.Dispute⟩]

/-- The client state reached by `doubleDisputeOps` from a fresh client. -/
def doubleDisputeClient : Client :=
  doubleDisputeOps.foldl Client.step (Client.new 7)

/-- C2 (refuting evaluation): after deposit(tx1, 1); deposit(tx2, 5);
dispute(tx1), transaction 1 is `InDispute` and the balances are
available 5, held 1, total 6; a second identical dispute of transaction 1
nevertheless succeeds (via the `InDispute → InDispute` self-transition) and
moves the balances again, to available 4, held 2. -/
theorem double_dispute_reapplies_delta :
    (mapLookup doubleDisputeClient.operations 1).map StatefulOperation.state
      = some OperationState.InDispute
    ∧ doubleDisputeClient.available = 5
    ∧ doubleDisputeClient.held = 1
    ∧ doubleDisputeClient.total = 6
    ∧ (doubleDisputeClient.apply ⟨1, OperationType.Dispute⟩).2 = none
    ∧ ((doubleDisputeClient.apply ⟨1, OperationType.Dispute⟩).1).available = 4
    ∧ ((doubleDisputeClient.apply ⟨1, OperationType.Dispute⟩).1).held = 2 := by
  norm_num [doubleDisputeClient, doubleDisputeOps, Client.step, Client.apply,
    Client.try_deposit, Client.try_withdraw, Client.try_dispute,
    Client.try_resolve, Client.try_chargeback, Client.new,
    StatefulOperation.new, StatefulOperation.state_transition, updateRecord,
    mapLookup]

/-- The spec's worked example, transactions 1–8 (the ninth is applied in the
theorem so that its error can be observed). -/
def workedExample : List Transaction :=
  [ ⟨⟨1, OperationType.Deposit 1⟩, 1⟩,
    ⟨⟨3, OperationType.Deposit 10.1234⟩, 2⟩,
    ⟨⟨2, OperationType.Withdrawal 1⟩, 1⟩,
    ⟨⟨4, OperationType.Deposit 0.6666⟩, 1⟩,
    ⟨⟨2, OperationType.Dispute⟩, 1⟩,
    ⟨⟨2, OperationType.Chargeback⟩, 1⟩,
    ⟨⟨5, OperationType.Deposit 1.7777⟩, 3⟩,
    ⟨⟨5, OperationType.Dispute⟩, 3⟩ ]

/-- The registry state after the first eight transactions of the worked
example. -/
def workedExampleState : Payments :=
  workedExample.foldl Payments.step Payments.empty

/-- C8: applying the worked example to a fresh registry, the ninth operation
deposit(client 1, tx5, 2) fails with `AccountLocked`, and the final states are
client 1: 1.6666/0/1.6666 locked, client 2: 10.1234/0/10.1234 unlocked,
client 3: 0/1.7777/1.7777 unlocked. -/
theorem worked_example_final_state :
    (workedExampleState.apply ⟨⟨5, OperationType.Deposit 2⟩, 1⟩).2
      = some (Error.AccountLocked 5)
    ∧ (mapLookup ((workedExampleState.apply
          ⟨⟨5, OperationType.Deposit 2⟩, 1⟩).1).clients 1).map
        (fun c => (c.available, c.held, c.total, c.locked))
      = some (1.6666, 0, 1.6666, true)
    ∧ (mapLookup ((workedExampleState.apply
          ⟨⟨5, OperationType.Deposit 2⟩, 1⟩).1).clients 2).map
        (fun c => (c.available, c.held, c.total, c.locked))
      = some (10.1234, 0, 10.1234, false)
    ∧ (mapLookup ((workedExampleState.apply
          ⟨⟨5, OperationType.Deposit 2⟩, 1⟩).1).clients 3).map
        (fun c => (c.available, c.held, c.total, c.locked))
      = some (0, 1.7777, 1.7777, false) := by
  norm_num [workedExampleState, workedExample, Payments.step, Payments.apply,
    Payments.empty, Client.apply, Client.try_deposit, Client.try_withdraw,
    Client.try_dispute, Client.try_resolve, Client.try_chargeback, Client.new,
    StatefulOperation.new, StatefulOperation.state_transition, setClient,
    updateRecord, mapLookup]

/-- C10: transaction-id uniqueness is per account only: a deposit with tx id 7
to account 1 and then a deposit with the same tx id 7 to account 2 both
succeed, each account holding its own record for id 7. -/
theorem cross_account_duplicate_ids_allowed :
    (Payments.apply Payments.empty ⟨⟨7, OperationType.Deposit 3⟩, 1⟩).2 = none
    ∧ ((Payments.step Payments.empty ⟨⟨7, OperationType.Deposit 3⟩, 1⟩).apply
        ⟨⟨7, OperationType.Deposit 4⟩, 2⟩).2 = none
    ∧ (mapLookup (Payments.step (Payments.step Payments.empty
          ⟨⟨7, OperationType.Deposit 3⟩, 1⟩)
          ⟨⟨7, OperationType.Deposit 4⟩, 2⟩).clients 1).map
        (fun c => mapLookup c.operations 7)
      = some (some ⟨7, 3, OperationState.New⟩)
    ∧ (mapLookup (Payments.step (Payments.step Payments.empty
          ⟨⟨7, OperationType.Deposit 3⟩, 1⟩)
          ⟨⟨7, OperationType.Deposit 4⟩, 2⟩).clients 2).map
        (fun c => mapLookup c.operations 7)
      = some (some ⟨7, 4, OperationState.New⟩) := by
  norm_num [Payments.step, Payments.apply, Payments.empty, Client.apply,
    Client.try_deposit, Client.new, StatefulOperation.new, setClient,
    mapLookup]

end PaymentsModel
